import Mathlib

/-!
Shallow embedding of `src/LaudaT2200.py`, a Tango device server that polls a
Lauda T2200 chiller over a line-oriented serial protocol.

Modelling conventions:
* Device responses are the already-stripped text lines that
  `readline().decode().strip()` produces; a device is a function from the
  command string (without the `\r\n` terminator) to `Option String`, where
  `none` models a serial-level exception raised during the exchange
  (disconnect, write failure, ...).
* Python `float(s)` is modelled by `pyFloat?` returning a `Rat` (exact
  decimal arithmetic; every decimal literal the protocol produces is a
  rational), Python `int(s)` on a string by `pyIntStr?`, and Python
  `int(x)` on a float by `pyTrunc` (truncation toward zero).
* An uncaught Python exception is modelled by `Except.error`: a step or
  cycle that returns `.error e` is one in which the exception `e` propagated
  out of the method.  In `_communication_loop` (a bare `while True:` with no
  handler) such an exception terminates the Worker thread, so
  `.error` at cycle level means the Worker crashes and no further cycle runs,
  while `.ok` means the cycle completed and the loop sleeps and repeats.
* Side effects that matter to the spec (serial exchanges,
  `push_change_event`) are recorded in an event trace.
-/

/-- One digit character to its value. -/
def digVal (c : Char) : Nat := c.toNat - 48

/-- Decimal value of a digit string (most significant first). -/
def natOfDigits (l : List Char) : Nat := l.foldl (fun a c => 10 * a + digVal c) 0

/-- Consume an optional leading sign; returns (isNegative, rest). -/
def parseSign : List Char → Bool × List Char
  | '-' :: rest => (true, rest)
  | '+' :: rest => (false, rest)
  | l => (false, l)

/-- Model of Python `float()` on an already-stripped string, over the decimal
grammar `[sign] (digits [. digits] | . digits) [(e|E) [sign] digits]`.
(`inf`/`nan`/underscore forms never occur in this protocol and are omitted.)
Returns the exact rational value, or `none` when Python would raise
`ValueError`. -/
def pyFloatCore? (l : List Char) : Option Rat :=
  let (neg, l1) := parseSign l
  let ip := l1.takeWhile Char.isDigit
  let l2 := l1.dropWhile Char.isDigit
  let (fp, l3) :=
    match l2 with
    | '.' :: r => (r.takeWhile Char.isDigit, r.dropWhile Char.isDigit)
    | _ => ([], l2)
  if ip.isEmpty && fp.isEmpty then none
  else
    let mant : Int := natOfDigits (ip ++ fp)
    let m : Int := if neg then -mant else mant
    match l3 with
    | [] => some (mkRat m (10 ^ fp.length))
    | c :: r =>
      if c = 'e' || c = 'E' then
        let (eneg, r1) := parseSign r
        let ed := r1.takeWhile Char.isDigit
        let r2 := r1.dropWhile Char.isDigit
        if ed.isEmpty || !r2.isEmpty then none
        else
          let e := natOfDigits ed
          if eneg then some (mkRat m (10 ^ (fp.length + e)))
          else some (mkRat (m * (10 : Int) ^ e) (10 ^ fp.length))
      else none

/-- Model of Python `float()` on a string. -/
def pyFloat? (s : String) : Option Rat := pyFloatCore? s.toList

/-- Model of Python `int()` applied directly to a string: optional sign then
digits, nothing else (so `int("0.0")` raises `ValueError`). -/
def pyIntStr? (s : String) : Option Int :=
  let (neg, l1) := parseSign s.toList
  if l1.isEmpty || !(l1.all Char.isDigit) then none
  else some (if neg then -(natOfDigits l1 : Int) else (natOfDigits l1 : Int))

/-- Model of Python `int()` applied to a float: truncation toward zero. -/
def pyTrunc (q : Rat) : Int := Int.tdiv q.num (q.den : Int)

/-- Tango `DevState` values this device ever sets. -/
inductive DevState
  | INIT
  | ON
  | RUNNING
  | FAULT
deriving DecidableEq, Repr

/-- The mutable attributes of the `LaudaT2200` device instance, as
initialized at the top of `init_device` (lines 24-34 of the source):
`_bath_temp = 0.0`, `_temp_setp = 21.0`, `_temp_setp_changed = False`,
`_chiller_status = ""`, `_is_on = False`, `_is_on_toggle = False`,
`_pressure = 0.0`, Tango state `INIT`.  Leading underscores are dropped
from field names. -/
structure LaudaT2200 where
  bath_temp : Rat
  temp_setp : Rat
  temp_setp_changed : Bool
  chiller_status : String
  is_on : Bool
  is_on_toggle : Bool
  pressure : Rat
  dev_state : DevState
deriving DecidableEq, Repr

/-- The field values set at the top of `init_device`, before the serial
port is touched. -/
def initState : LaudaT2200 :=
  { bath_temp := 0
    temp_setp := 21
    temp_setp_changed := false
    chiller_status := ""
    is_on := false
    is_on_toggle := false
    pressure := 0
    dev_state := .INIT }

/-- A device on the far end of the serial line: maps each command line (sans
terminator) to the stripped response line, or `none` when the exchange
raises a serial-level exception. -/
def Dev : Type := String → Option String

/-- Python exceptions that can propagate out of a communication step. -/
inductive PyErr
  | transport (cmd : String)
  | valueError (resp : String)
deriving DecidableEq, Repr

/-- Observable events of one cycle: serial exchanges (command and response)
and `push_change_event` calls. -/
inductive Ev
  | exch (cmd : String) (resp : Option String)
  | push (attr : String) (val : Bool)
deriving DecidableEq, Repr

deriving instance DecidableEq for Except

/-- Result of one communication step: either an uncaught exception, or the
updated device state together with the events the step emitted. -/
def StepResult : Type := Except PyErr (LaudaT2200 × List Ev)

instance : DecidableEq StepResult :=
  inferInstanceAs (DecidableEq (Except PyErr (LaudaT2200 × List Ev)))

/-- Sequence two steps, threading the state and appending traces; an
exception in either aborts (it propagates out of the enclosing method). -/
def andThen (r : StepResult) (f : LaudaT2200 → StepResult) : StepResult :=
  match r with
  | .error e => .error e
  | .ok (s, t) =>
    match f s with
    | .error e => .error e
    | .ok (s', t') => .ok (s', t ++ t')

/-- `_read_bath_temp` (source lines 138-145): exchange `IN_PV_00`; on a
response that parses as a float store it in `_bath_temp`, on `ValueError`
log and keep the previous value (the `try`/`except ValueError` block). -/
def read_bath_temp_step (dev : Dev) (s : LaudaT2200) : StepResult :=
  match dev "IN_PV_00" with
  | none => .error (.transport "IN_PV_00")
  | some resp =>
    let s' :=
      match pyFloat? resp with
      | some v => { s with bath_temp := v }
      | none => s
    .ok (s', [.exch "IN_PV_00" (some resp)])

/-- `_read_pressure` (source lines 163-170): exchange `IN_PV_02`; parse as
float into `_pressure`, keeping the previous value on `ValueError`. -/
def read_pressure_step (dev : Dev) (s : LaudaT2200) : StepResult :=
  match dev "IN_PV_02" with
  | none => .error (.transport "IN_PV_02")
  | some resp =>
    let s' :=
      match pyFloat? resp with
      | some v => { s with pressure := v }
      | none => s
    .ok (s', [.exch "IN_PV_02" (some resp)])

/-- `_read_setp` (source lines 200-207): exchange `IN_SP_00`; parse as float
into `_temp_setp`, keeping the previous value on `ValueError`. -/
def read_setp_step (dev : Dev) (s : LaudaT2200) : StepResult :=
  match dev "IN_SP_00" with
  | none => .error (.transport "IN_SP_00")
  | some resp =>
    let s' :=
      match pyFloat? resp with
      | some v => { s with temp_setp := v }
      | none => s
    .ok (s', [.exch "IN_SP_00" (some resp)])

/-- `_read_chiller_status` (source lines 147-161): exchange `STATUS` and
evaluate `int(float(response))` with NO try/except — a non-numeric response
raises an uncaught `ValueError`.  Code `0` does nothing, `-1` sets the Tango
state to FAULT, any other code is ignored.  Then exchange `STAT` and store
the raw response in `_chiller_status`. -/
def read_chiller_status_step (dev : Dev) (s : LaudaT2200) : StepResult :=
  match dev "STATUS" with
  | none => .error (.transport "STATUS")
  | some resp =>
    match pyFloat? resp with
    | none => .error (.valueError resp)
    | some q =>
      let s1 :=
        if pyTrunc q = 0 then s
        else if pyTrunc q = -1 then { s with dev_state := .FAULT }
        else s
      match dev "STAT" with
      | none => .error (.transport "STAT")
      | some r2 =>
        .ok ({ s1 with chiller_status := r2 },
             [.exch "STATUS" (some resp), .exch "STAT" (some r2)])

/-- `_read_is_on` (source lines 172-184): exchange `IN_MODE_02`; inside a
`try`/`except ValueError`, compute `r = int(float(response))`; `r == 0` sets
`_is_on = True` and the Tango state to RUNNING, `r == 1` sets
`_is_on = False` (state untouched), any other `r` changes nothing. -/
def read_is_on_step (dev : Dev) (s : LaudaT2200) : StepResult :=
  match dev "IN_MODE_02" with
  | none => .error (.transport "IN_MODE_02")
  | some resp =>
    let s' :=
      match pyFloat? resp with
      | none => s
      | some q =>
        if pyTrunc q = 0 then { s with is_on := true, dev_state := .RUNNING }
        else if pyTrunc q = 1 then { s with is_on := false }
        else s
    .ok (s', [.exch "IN_MODE_02" (some resp)])

/-- `_write_is_on` (source lines 186-198): when `_is_on_toggle` is set,
exchange `START` (if `_is_on`) or `STOP`, set the Tango state to RUNNING
resp. ON, push a change event for `is_on`, and clear the toggle flag.
When the flag is clear the method does nothing. -/
def write_is_on_step (dev : Dev) (s : LaudaT2200) : StepResult :=
  if s.is_on_toggle then
    let cmd := if s.is_on then "START" else "STOP"
    match dev cmd with
    | none => .error (.transport cmd)
    | some resp =>
      let s1 :=
        if s.is_on then { s with dev_state := .RUNNING }
        else { s with dev_state := .ON }
      .ok ({ s1 with is_on_toggle := false },
           [.exch cmd (some resp), .push "is_on" s.is_on])
  else .ok (s, [])

/-- The command string `f"OUT_SP_00_{self._temp_setp}"` (the numeric
rendering of the rational stands in for Python float formatting). -/
def out_sp_cmd (q : Rat) : String := "OUT_SP_00_" ++ toString q

/-- `_write_setp` (source lines 209-215): when `_temp_setp_changed` is set,
exchange `OUT_SP_00_<value>` and clear the flag; otherwise do nothing. -/
def write_setp_step (dev : Dev) (s : LaudaT2200) : StepResult :=
  if s.temp_setp_changed then
    match dev (out_sp_cmd s.temp_setp) with
    | none => .error (.transport (out_sp_cmd s.temp_setp))
    | some resp =>
      .ok ({ s with temp_setp_changed := false },
           [.exch (out_sp_cmd s.temp_setp) (some resp)])
  else .ok (s, [])

/-- One iteration of `_communication_loop` (source lines 119-134): flush
pending writes (`_write_is_on`, `_write_setp`), then the read cycle
(`_read_bath_temp`, `_read_pressure`, `_read_setp`,
`_read_chiller_status`), then `_read_is_on`, then sleep.  The loop body has
no exception handler, so an exception in any step (`.error`) terminates the
Worker thread. -/
def communication_cycle (dev : Dev) (s : LaudaT2200) : StepResult :=
  andThen (andThen (andThen (andThen (andThen (andThen
    (write_is_on_step dev s)
    (write_setp_step dev))
    (read_bath_temp_step dev))
    (read_pressure_step dev))
    (read_setp_step dev))
    (read_chiller_status_step dev))
    (read_is_on_step dev)

/-- `n` iterations of `_communication_loop`: the loop runs the next cycle
only when the previous one completed without an uncaught exception. -/
def communication_loop : Nat → Dev → LaudaT2200 → StepResult
  | 0, _, s => .ok (s, [])
  | n + 1, dev, s =>
    andThen (communication_cycle dev s) (communication_loop n dev)

/-- Tango attribute reader `read_bath_temp` (source line 219). -/
def read_bath_temp (s : LaudaT2200) : Rat := s.bath_temp

/-- Tango attribute reader `read_temp_setp` (source line 222). -/
def read_temp_setp (s : LaudaT2200) : Rat := s.temp_setp

/-- Tango attribute reader `read_chiller_status` (source line 225). -/
def read_chiller_status (s : LaudaT2200) : String := s.chiller_status

/-- Tango attribute reader `read_is_on` (source line 228). -/
def read_is_on (s : LaudaT2200) : Bool := s.is_on

/-- Tango attribute reader `read_pressure` (source line 231). -/
def read_pressure (s : LaudaT2200) : Rat := s.pressure

/-- Tango attribute writer `write_temp_setp` (source lines 235-237): sets
`_temp_setp` to the written value immediately and raises the pending flag. -/
def write_temp_setp (s : LaudaT2200) (value : Rat) : LaudaT2200 :=
  { s with temp_setp := value, temp_setp_changed := true }

/-- Tango attribute writer `write_is_on` (source lines 239-241): raises the
toggle flag and stores the desired on/off value (single slot: a second call
before the next cycle overwrites the first). -/
def write_is_on (s : LaudaT2200) (value : Bool) : LaudaT2200 :=
  { s with is_on_toggle := true, is_on := value }

/-- `init_device` (source lines 22-68) after the field initialisation:
`openOk` models whether constructing/opening the serial port raised, and
`probe` the initial `STATUS` exchange (`none` = serial exception).  The
probe response is parsed with plain `int(response)`; `0` sets the state to
ON, `-1` to FAULT, anything else leaves INIT.  The Worker thread is started
only when no exception occurred; any exception lands in the `except` block,
which sets FAULT and never starts the thread.  Returns the resulting state
and whether the Worker thread was started. -/
def init_device (openOk : Bool) (probe : Option String) : LaudaT2200 × Bool :=
  if !openOk then ({ initState with dev_state := .FAULT }, false)
  else
    match probe with
    | none => ({ initState with dev_state := .FAULT }, false)
    | some resp =>
      match pyIntStr? resp with
      | none => ({ initState with dev_state := .FAULT }, false)
      | some n =>
        let s1 :=
          if n = 0 then { initState with dev_state := .ON }
          else if n = -1 then { initState with dev_state := .FAULT }
          else initState
        (s1, true)

/-- The simulated device used throughout: fixed responses for the six read
commands, and an empty echo line for any other (write) command. -/
def mkDev (rBath rPress rSetp rStatus rStat rMode : String) : Dev := fun cmd =>
  if cmd = "IN_PV_00" then some rBath
  else if cmd = "IN_PV_02" then some rPress
  else if cmd = "IN_SP_00" then some rSetp
  else if cmd = "STATUS" then some rStatus
  else if cmd = "STAT" then some rStat
  else if cmd = "IN_MODE_02" then some rMode
  else some ""

/-- Closed form of the device state after one successful cycle against
`mkDev` responses, with `q` the parsed `STATUS` float (proved equal to the
cycle's result in `communication_cycle_mkDev`). -/
def cycleState (s : LaudaT2200) (rB rP rS rTxt rM : String) (q : Rat) :
    LaudaT2200 :=
  let stFlush :=
    if s.is_on_toggle then (if s.is_on then DevState.RUNNING else DevState.ON)
    else s.dev_state
  let stStatus :=
    if pyTrunc q = 0 then stFlush
    else if pyTrunc q = -1 then DevState.FAULT
    else stFlush
  { bath_temp := (pyFloat? rB).getD s.bath_temp
    temp_setp := (pyFloat? rS).getD s.temp_setp
    temp_setp_changed := false
    chiller_status := rTxt
    is_on :=
      match pyFloat? rM with
      | some qm =>
        if pyTrunc qm = 0 then true
        else if pyTrunc qm = 1 then false
        else s.is_on
      | none => s.is_on
    is_on_toggle := false
    pressure := (pyFloat? rP).getD s.pressure
    dev_state :=
      match pyFloat? rM with
      | some qm => if pyTrunc qm = 0 then DevState.RUNNING else stStatus
      | none => stStatus }

/-- Closed form of the event trace of one successful cycle against `mkDev`
responses: flushed writes first (power, then setpoint), then the six read
exchanges in the source's fixed order. -/
def cycleTrace (s : LaudaT2200) (rB rP rS rSt rTxt rM : String) : List Ev :=
  (if s.is_on_toggle then
    [.exch (if s.is_on then "START" else "STOP") (some ""),
     .push "is_on" s.is_on]
   else [])
  ++ (if s.temp_setp_changed then [.exch (out_sp_cmd s.temp_setp) (some "")]
      else [])
  ++ [.exch "IN_PV_00" (some rB), .exch "IN_PV_02" (some rP),
      .exch "IN_SP_00" (some rS), .exch "STATUS" (some rSt),
      .exch "STAT" (some rTxt), .exch "IN_MODE_02" (some rM)]

/-- Is a trace event a `START` or `STOP` exchange? -/
def isStartStop : Ev → Bool
  | .exch c _ => c == "START" || c == "STOP"
  | _ => false

/-- The `OUT_SP_00_...` command always starts with `O`. -/
lemma out_sp_cmd_head (x : Rat) : (out_sp_cmd x).data.head? = some 'O' := by
  simp [out_sp_cmd, String.data_append]

/-- The setpoint-write command differs from every command whose first
character is not `O`; `mkDev` therefore answers it with the echo line. -/
lemma mkDev_out_sp (rB rP rS rSt rTxt rM : String) (x : Rat) :
    mkDev rB rP rS rSt rTxt rM (out_sp_cmd x) = some "" := by
  have h : ∀ c : String, c.data.head? ≠ some 'O' → out_sp_cmd x ≠ c := by
    intro c hc he
    exact hc (he ▸ out_sp_cmd_head x)
  simp only [mkDev]
  rw [if_neg (h _ (by decide)), if_neg (h _ (by decide)),
    if_neg (h _ (by decide)), if_neg (h _ (by decide)),
    if_neg (h _ (by decide)), if_neg (h _ (by decide))]

lemma mkDev_start (rB rP rS rSt rTxt rM : String) :
    mkDev rB rP rS rSt rTxt rM "START" = some "" := by
  simp [mkDev]

lemma mkDev_stop (rB rP rS rSt rTxt rM : String) :
    mkDev rB rP rS rSt rTxt rM "STOP" = some "" := by
  simp [mkDev]

/-- `_read_bath_temp` against the simulated device: last-good-value form. -/
lemma read_bath_temp_step_mkDev (rB rP rS rSt rTxt rM : String)
    (s : LaudaT2200) :
    read_bath_temp_step (mkDev rB rP rS rSt rTxt rM) s =
      .ok ({ s with bath_temp := (pyFloat? rB).getD s.bath_temp },
           [.exch "IN_PV_00" (some rB)]) := by
  have hd : mkDev rB rP rS rSt rTxt rM "IN_PV_00" = some rB := by simp [mkDev]
  unfold read_bath_temp_step
  rw [hd]
  cases h : pyFloat? rB <;> simp [h]

/-- `_read_pressure` against the simulated device. -/
lemma read_pressure_step_mkDev (rB rP rS rSt rTxt rM : String)
    (s : LaudaT2200) :
    read_pressure_step (mkDev rB rP rS rSt rTxt rM) s =
      .ok ({ s with pressure := (pyFloat? rP).getD s.pressure },
           [.exch "IN_PV_02" (some rP)]) := by
  have hd : mkDev rB rP rS rSt rTxt rM "IN_PV_02" = some rP := by simp [mkDev]
  unfold read_pressure_step
  rw [hd]
  cases h : pyFloat? rP <;> simp [h]

/-- `_read_setp` against the simulated device. -/
lemma read_setp_step_mkDev (rB rP rS rSt rTxt rM : String) (s : LaudaT2200) :
    read_setp_step (mkDev rB rP rS rSt rTxt rM) s =
      .ok ({ s with temp_setp := (pyFloat? rS).getD s.temp_setp },
           [.exch "IN_SP_00" (some rS)]) := by
  have hd : mkDev rB rP rS rSt rTxt rM "IN_SP_00" = some rS := by simp [mkDev]
  unfold read_setp_step
  rw [hd]
  cases h : pyFloat? rS <;> simp [h]

/-- `_read_chiller_status` against the simulated device, when the `STATUS`
response parses as a float. -/
lemma read_chiller_status_step_mkDev (rB rP rS rSt rTxt rM : String)
    (q : Rat) (hSt : pyFloat? rSt = some q) (s : LaudaT2200) :
    read_chiller_status_step (mkDev rB rP rS rSt rTxt rM) s =
      .ok ({ s with
              chiller_status := rTxt
              dev_state :=
                if pyTrunc q = 0 then s.dev_state
                else if pyTrunc q = -1 then DevState.FAULT
                else s.dev_state },
           [.exch "STATUS" (some rSt), .exch "STAT" (some rTxt)]) := by
  have hd : mkDev rB rP rS rSt rTxt rM "STATUS" = some rSt := by simp [mkDev]
  have hd2 : mkDev rB rP rS rSt rTxt rM "STAT" = some rTxt := by simp [mkDev]
  unfold read_chiller_status_step
  simp only [hd, hSt, hd2]
  by_cases h0 : pyTrunc q = 0
  · simp [h0]
  · by_cases h1 : pyTrunc q = -1 <;> simp [h0, h1]

/-- `_read_is_on` against the simulated device. -/
lemma read_is_on_step_mkDev (rB rP rS rSt rTxt rM : String) (s : LaudaT2200) :
    read_is_on_step (mkDev rB rP rS rSt rTxt rM) s =
      .ok ({ s with
              is_on :=
                match pyFloat? rM with
                | some qm =>
                  if pyTrunc qm = 0 then true
                  else if pyTrunc qm = 1 then false
                  else s.is_on
                | none => s.is_on
              dev_state :=
                match pyFloat? rM with
                | some qm =>
                  if pyTrunc qm = 0 then DevState.RUNNING else s.dev_state
                | none => s.dev_state },
           [.exch "IN_MODE_02" (some rM)]) := by
  have hd : mkDev rB rP rS rSt rTxt rM "IN_MODE_02" = some rM := by
    simp [mkDev]
  unfold read_is_on_step
  rw [hd]
  cases h : pyFloat? rM with
  | none => simp [h]
  | some qm =>
    by_cases h0 : pyTrunc qm = 0
    · simp [h, h0]
    · by_cases h1 : pyTrunc qm = 1 <;> simp [h, h0, h1]

/-- `_write_is_on` against the simulated device. -/
lemma write_is_on_step_mkDev (rB rP rS rSt rTxt rM : String)
    (s : LaudaT2200) :
    write_is_on_step (mkDev rB rP rS rSt rTxt rM) s =
      .ok (if s.is_on_toggle then
             { s with
                dev_state :=
                  if s.is_on then DevState.RUNNING else DevState.ON
                is_on_toggle := false }
           else s,
           if s.is_on_toggle then
             [.exch (if s.is_on then "START" else "STOP") (some ""),
              .push "is_on" s.is_on]
           else []) := by
  unfold write_is_on_step
  cases ht : s.is_on_toggle
  · simp
  · cases ho : s.is_on
    · rw [if_pos rfl]
      simp [mkDev_stop, ho]
    · rw [if_pos rfl]
      simp [mkDev_start, ho]

/-- `_write_setp` against the simulated device. -/
lemma write_setp_step_mkDev (rB rP rS rSt rTxt rM : String) (s : LaudaT2200) :
    write_setp_step (mkDev rB rP rS rSt rTxt rM) s =
      .ok (if s.temp_setp_changed then { s with temp_setp_changed := false }
           else s,
           if s.temp_setp_changed then
             [.exch (out_sp_cmd s.temp_setp) (some "")]
           else []) := by
  unfold write_setp_step
  cases ht : s.temp_setp_changed
  · simp
  · rw [if_pos rfl, mkDev_out_sp]
    simp

/-- Master lemma: provided the `STATUS` response parses as a float, one
cycle of `_communication_loop` against the simulated device completes
without an exception, with the closed-form state and trace. -/
lemma communication_cycle_mkDev (s : LaudaT2200) (rB rP rS rSt rTxt rM : String)
    (q : Rat) (hSt : pyFloat? rSt = some q) :
    communication_cycle (mkDev rB rP rS rSt rTxt rM) s =
      .ok (cycleState s rB rP rS rTxt rM q, cycleTrace s rB rP rS rSt rTxt rM) := by
  cases ht : s.is_on_toggle <;> cases hc : s.temp_setp_changed <;>
    cases hm : pyFloat? rM <;>
      simp only [communication_cycle, andThen, write_is_on_step_mkDev,
        write_setp_step_mkDev, read_bath_temp_step_mkDev,
        read_pressure_step_mkDev, read_setp_step_mkDev,
        read_chiller_status_step_mkDev rB rP rS rSt rTxt rM q hSt,
        read_is_on_step_mkDev, cycleState, cycleTrace, ht, hc, hm] <;>
      simp [ht, hc, hm]

/-- The setpoint-write command is never `START`. -/
lemma out_sp_cmd_ne_start (x : Rat) : out_sp_cmd x ≠ "START" := by
  intro he
  have := out_sp_cmd_head x
  rw [he] at this
  exact absurd this (by decide)

/-- The setpoint-write command is never `STOP`. -/
lemma out_sp_cmd_ne_stop (x : Rat) : out_sp_cmd x ≠ "STOP" := by
  intro he
  have := out_sp_cmd_head x
  rw [he] at this
  exact absurd this (by decide)

/-- The setpoint-write exchange is never a `START`/`STOP` event. -/
lemma isStartStop_out_sp (x : Rat) (r : Option String) :
    isStartStop (.exch (out_sp_cmd x) r) = false := by
  simp [isStartStop, out_sp_cmd_ne_start, out_sp_cmd_ne_stop]

/-- Provided every `STATUS` response parses, any number of loop iterations
against the simulated device completes without an exception. -/
lemma communication_loop_mkDev_ok (rB rP rS rSt rTxt rM : String) (q : Rat)
    (hSt : pyFloat? rSt = some q) :
    ∀ n (s : LaudaT2200), ∃ s' t,
      communication_loop n (mkDev rB rP rS rSt rTxt rM) s = .ok (s', t) := by
  intro n
  induction n with
  | zero => exact fun s => ⟨s, [], rfl⟩
  | succ n ih =>
    intro s
    obtain ⟨s', t, h⟩ := ih (cycleState s rB rP rS rTxt rM q)
    refine ⟨s', cycleTrace s rB rP rS rSt rTxt rM ++ t, ?_⟩
    simp only [communication_loop, andThen,
      communication_cycle_mkDev s rB rP rS rSt rTxt rM q hSt, h]

/-- C6: End-to-end reference run.  From the initial device state, with a
simulated device answering `0` to STATUS, `23.5` to IN_PV_00, `1.2` to
IN_PV_02, `21.0` to IN_SP_00, `OK` to STAT and `0` to IN_MODE_02, one full
Worker cycle completes and the published attributes read
bath_temp = 23.5 (= 47/2), pressure = 1.2 (= 6/5), temp_setp = 21.0,
chiller_status = "OK", is_on = true, and the lifecycle state is RUNNING. -/
theorem C6_reference_run :
    ∃ s' t, communication_cycle (mkDev "23.5" "1.2" "21.0" "0" "OK" "0")
        initState = .ok (s', t) ∧
      read_bath_temp s' = mkRat 47 2 ∧
      read_pressure s' = mkRat 6 5 ∧
      read_temp_setp s' = 21 ∧
      read_chiller_status s' = "OK" ∧
      read_is_on s' = true ∧
      s'.dev_state = .RUNNING := by
  refine ⟨{ bath_temp := mkRat 47 2, temp_setp := 21,
            temp_setp_changed := false, chiller_status := "OK",
            is_on := true, is_on_toggle := false, pressure := mkRat 6 5,
            dev_state := .RUNNING },
          [.exch "IN_PV_00" (some "23.5"), .exch "IN_PV_02" (some "1.2"),
           .exch "IN_SP_00" (some "21.0"), .exch "STATUS" (some "0"),
           .exch "STAT" (some "OK"), .exch "IN_MODE_02" (some "0")],
          by decide, rfl, rfl, rfl, rfl, rfl, rfl⟩

/-- C2: a bath-temperature (`IN_PV_00`) or pressure (`IN_PV_02`) read step
whose response `R` parses as a float stores exactly the parsed value of `R`
in the corresponding field; when `R` does not parse, the state is exactly
the state before the call (no default or zero is written). -/
theorem C2_pv_reads_exact_or_unchanged (s : LaudaT2200) (R : String) :
    (∀ v, pyFloat? R = some v →
      read_bath_temp_step (fun _ => some R) s =
        .ok ({ s with bath_temp := v }, [.exch "IN_PV_00" (some R)]) ∧
      read_pressure_step (fun _ => some R) s =
        .ok ({ s with pressure := v }, [.exch "IN_PV_02" (some R)])) ∧
    (pyFloat? R = none →
      read_bath_temp_step (fun _ => some R) s =
        .ok (s, [.exch "IN_PV_00" (some R)]) ∧
      read_pressure_step (fun _ => some R) s =
        .ok (s, [.exch "IN_PV_02" (some R)])) := by
  constructor
  · intro v hv
    constructor <;> simp [read_bath_temp_step, read_pressure_step, hv]
  · intro hv
    constructor <;> simp [read_bath_temp_step, read_pressure_step, hv]

/-- Witness for C2 at response "23.5" (float value 47/2) on the initial
state. -/
theorem C2_pv_reads_exact_or_unchanged_witness :
    read_bath_temp_step (fun _ => some "23.5") initState =
      .ok ({ initState with bath_temp := mkRat 47 2 },
           [.exch "IN_PV_00" (some "23.5")]) :=
  ((C2_pv_reads_exact_or_unchanged initState "23.5").1 (mkRat 47 2)
    (by decide)).1

/-- C9: from every prior state (FAULT included), a parsed `IN_MODE_02`
response with integer value 0 sets `is_on` true and the lifecycle state to
RUNNING; value 1 sets `is_on` false and leaves the lifecycle state
untouched; any other parsed integer changes nothing. -/
theorem C9_mode_read_lifecycle (s : LaudaT2200) (R : String) (q : Rat)
    (h : pyFloat? R = some q) :
    (pyTrunc q = 0 →
      read_is_on_step (fun _ => some R) s =
        .ok ({ s with is_on := true, dev_state := .RUNNING },
             [.exch "IN_MODE_02" (some R)])) ∧
    (pyTrunc q = 1 →
      read_is_on_step (fun _ => some R) s =
        .ok ({ s with is_on := false }, [.exch "IN_MODE_02" (some R)])) ∧
    (pyTrunc q ≠ 0 → pyTrunc q ≠ 1 →
      read_is_on_step (fun _ => some R) s =
        .ok (s, [.exch "IN_MODE_02" (some R)])) := by
  refine ⟨fun h0 => ?_, fun h1 => ?_, fun h0 h1 => ?_⟩ <;>
    simp_all [read_is_on_step]

/-- Witness for C9: a mode response "0" read in a FAULT state switches the
device to RUNNING with `is_on` true. -/
theorem C9_mode_read_lifecycle_witness :
    read_is_on_step (fun _ => some "0") { initState with dev_state := .FAULT } =
      .ok ({ { initState with dev_state := .FAULT } with
              is_on := true, dev_state := .RUNNING },
           [.exch "IN_MODE_02" (some "0")]) :=
  (C9_mode_read_lifecycle { initState with dev_state := .FAULT } "0"
    (mkRat 0 1) (by decide)).1 (by decide)

/-- C7: `init_device` with a failed serial open, a serial exception on the
initial STATUS probe, or a probe response `int()` cannot parse, sets the
Tango state to FAULT and never starts the polling Worker thread (the
exception lands in the `except` block before `comm_thread.start()`). -/
theorem C7_startup_failure_fault_no_worker :
    (∀ probe, init_device false probe =
      ({ initState with dev_state := .FAULT }, false)) ∧
    (init_device true none = ({ initState with dev_state := .FAULT }, false)) ∧
    (∀ r, pyIntStr? r = none →
      init_device true (some r) =
        ({ initState with dev_state := .FAULT }, false)) := by
  refine ⟨fun probe => rfl, rfl, fun r hr => ?_⟩
  simp [init_device, hr]

/-- Witness for C7: an unparseable probe response. -/
theorem C7_startup_failure_fault_no_worker_witness :
    init_device true (some "ERR") =
      ({ initState with dev_state := .FAULT }, false) :=
  C7_startup_failure_fault_no_worker.2.2 "ERR" (by decide)

/-- C10: when the serial port opens and the initial STATUS probe parses as
an integer other than 0 and -1, `init_device` leaves the state at INIT and
still starts the polling Worker thread. -/
theorem C10_unknown_status_keeps_init_starts_worker (r : String) (n : Int)
    (h : pyIntStr? r = some n) (h0 : n ≠ 0) (h1 : n ≠ -1) :
    init_device true (some r) = (initState, true) := by
  simp [init_device, h, h0, h1]

/-- Witness for C10 at probe response "5". -/
theorem C10_unknown_status_keeps_init_starts_worker_witness :
    init_device true (some "5") = (initState, true) :=
  C10_unknown_status_keeps_init_starts_worker "5" 5 (by decide) (by decide)
    (by decide)

/-- C8 counterexample: writing the `temp_setp` attribute DOES change the
value returned by an immediately following read, before any device
round-trip: on the initial state (setpoint 21.0), writing 30 makes
`read_temp_setp` return 30 at once, with no Worker cycle in between. -/
theorem C8_counterexample :
    read_temp_setp (write_temp_setp initState 30) = 30 ∧
    read_temp_setp initState = 21 := by
  exact ⟨rfl, rfl⟩

/-- C8 amended: `read_temp_setp` returns the stored `_temp_setp` field,
which holds the last `IN_SP_00` value read from the device OR the last
value written through the attribute, whichever came later: a write both
raises the pending flag and immediately overwrites the stored value (so
subsequent reads see it before any round-trip), and the Worker's next
`_read_setp` replaces it with the device's parsed `IN_SP_00` response. -/
theorem C8_amended_setpoint_write_semantics (s : LaudaT2200) (v : Rat)
    (R : String) (w : Rat) (hR : pyFloat? R = some w) :
    write_temp_setp s v = { s with temp_setp := v, temp_setp_changed := true } ∧
    read_temp_setp (write_temp_setp s v) = v ∧
    read_setp_step (fun _ => some R) (write_temp_setp s v) =
      .ok ({ s with temp_setp := w, temp_setp_changed := true },
           [.exch "IN_SP_00" (some R)]) := by
  refine ⟨rfl, rfl, ?_⟩
  simp [read_setp_step, write_temp_setp, hR]

/-- Witness for the amended C8 at write 30, device answering "25.0". -/
theorem C8_amended_setpoint_write_semantics_witness :
    write_temp_setp initState 30 =
      { initState with temp_setp := 30, temp_setp_changed := true } ∧
    read_temp_setp (write_temp_setp initState 30) = 30 ∧
    read_setp_step (fun _ => some "25.0") (write_temp_setp initState 30) =
      .ok ({ initState with temp_setp := mkRat 25 1, temp_setp_changed := true },
           [.exch "IN_SP_00" (some "25.0")]) :=
  C8_amended_setpoint_write_semantics initState 30 "25.0" (mkRat 25 1)
    (by decide)

/-- C5: a `STATUS` response of "-1" sets the lifecycle state to FAULT while
the cycle (and any number of subsequent cycles) completes normally, and a
`STATUS` response of "0" falls into the `pass` branch: it never changes the
lifecycle state, so a FAULT entered earlier is never cleared by a
status-ok read. -/
theorem C5_alarm_fault_sticky (s : LaudaT2200) (rB rP rS rTxt rM txt : String) :
    (∃ s' t, communication_cycle (mkDev rB rP rS "-1" rTxt rM) s = .ok (s', t)) ∧
    (∀ n, ∃ s' t,
      communication_loop n (mkDev rB rP rS "-1" rTxt rM) s = .ok (s', t)) ∧
    read_chiller_status_step (mkDev rB rP rS "-1" txt rM) s =
      .ok ({ s with chiller_status := txt, dev_state := .FAULT },
           [.exch "STATUS" (some "-1"), .exch "STAT" (some txt)]) ∧
    read_chiller_status_step (mkDev rB rP rS "0" txt rM) s =
      .ok ({ s with chiller_status := txt },
           [.exch "STATUS" (some "0"), .exch "STAT" (some txt)]) := by
  have hm1 : pyFloat? "-1" = some (mkRat (-1) 1) := by decide
  have h0 : pyFloat? "0" = some (mkRat 0 1) := by decide
  have ht1 : pyTrunc (mkRat (-1) 1) = -1 := by decide
  have ht0 : pyTrunc (mkRat 0 1) = 0 := by decide
  refine ⟨⟨_, _, communication_cycle_mkDev s rB rP rS "-1" rTxt rM _ hm1⟩,
    fun n => communication_loop_mkDev_ok rB rP rS "-1" rTxt rM _ hm1 n s,
    ?_, ?_⟩
  · rw [read_chiller_status_step_mkDev rB rP rS "-1" txt rM (mkRat (-1) 1)
      hm1 s]
    rw [ht1]
    simp
  · rw [read_chiller_status_step_mkDev rB rP rS "0" txt rM (mkRat 0 1) h0 s]
    rw [ht0]
    simp

/-- C3: with a setpoint request pending at cycle start, the cycle's trace is
exactly an optional power flush, then the `OUT_SP_00_<value>` exchange, and
only then the read exchanges in the fixed order bath temperature, pressure,
active setpoint, status code, status text, run mode; afterwards the pending
flag is clear. -/
theorem C3_pending_setpoint_flushed_before_reads (s : LaudaT2200)
    (rB rP rS rSt rTxt rM : String) (q : Rat) (hSt : pyFloat? rSt = some q)
    (hp : s.temp_setp_changed = true) :
    ∃ s', communication_cycle (mkDev rB rP rS rSt rTxt rM) s =
        .ok (s',
          (if s.is_on_toggle then
            [.exch (if s.is_on then "START" else "STOP") (some ""),
             .push "is_on" s.is_on]
           else [])
          ++ ([.exch (out_sp_cmd s.temp_setp) (some "")]
          ++ [.exch "IN_PV_00" (some rB), .exch "IN_PV_02" (some rP),
              .exch "IN_SP_00" (some rS), .exch "STATUS" (some rSt),
              .exch "STAT" (some rTxt), .exch "IN_MODE_02" (some rM)])) ∧
      s'.temp_setp_changed = false := by
  refine ⟨cycleState s rB rP rS rTxt rM q, ?_, by simp [cycleState]⟩
  rw [communication_cycle_mkDev s rB rP rS rSt rTxt rM q hSt]
  unfold cycleTrace
  rw [hp]
  simp

/-- Witness for C3: a pending setpoint of 25 on the otherwise idle initial
state is flushed as `OUT_SP_00_25` ahead of the six reads and the flag is
cleared. -/
theorem C3_pending_setpoint_flushed_before_reads_witness :
    ∃ s', communication_cycle (mkDev "23.5" "1.2" "21.0" "0" "OK" "1")
        (write_temp_setp initState 25) =
      .ok (s',
        [.exch (out_sp_cmd 25) (some ""), .exch "IN_PV_00" (some "23.5"),
         .exch "IN_PV_02" (some "1.2"), .exch "IN_SP_00" (some "21.0"),
         .exch "STATUS" (some "0"), .exch "STAT" (some "OK"),
         .exch "IN_MODE_02" (some "1")]) ∧
      s'.temp_setp_changed = false := by
  have h := C3_pending_setpoint_flushed_before_reads
    (write_temp_setp initState 25) "23.5" "1.2" "21.0" "0" "OK" "1"
    (mkRat 0 1) (by decide) rfl
  simpa using h

/-- C4: power requests are single-slot with last-write-wins: an on-request
then an off-request before the next cycle leaves the slot holding `off`
with the toggle pending, and the next cycle issues exactly one START/STOP
exchange — a STOP, matching the final request.  A flushed power-on sets the
lifecycle state to RUNNING, a flushed power-off sets it to ON, the pending
flag is cleared, and the `is_on` change event is pushed exactly on a flush
(no flush, no event). -/
theorem C4_power_request_last_write_wins (s : LaudaT2200)
    (rB rP rS rSt rTxt rM : String) (q : Rat) (hSt : pyFloat? rSt = some q) :
    write_is_on (write_is_on s true) false =
      { s with is_on := false, is_on_toggle := true } ∧
    (∃ s' t, communication_cycle (mkDev rB rP rS rSt rTxt rM)
        (write_is_on (write_is_on s true) false) = .ok (s', t) ∧
      t.filter isStartStop = [.exch "STOP" (some "")]) ∧
    write_is_on_step (mkDev rB rP rS rSt rTxt rM)
        { s with is_on := true, is_on_toggle := true } =
      .ok ({ s with
              is_on := true
              is_on_toggle := false
              dev_state := .RUNNING },
           [.exch "START" (some ""), .push "is_on" true]) ∧
    write_is_on_step (mkDev rB rP rS rSt rTxt rM)
        { s with is_on := false, is_on_toggle := true } =
      .ok ({ s with
              is_on := false
              is_on_toggle := false
              dev_state := .ON },
           [.exch "STOP" (some ""), .push "is_on" false]) ∧
    (s.is_on_toggle = false →
      write_is_on_step (mkDev rB rP rS rSt rTxt rM) s = .ok (s, [])) := by
  refine ⟨rfl, ?_, ?_, ?_, fun htog => ?_⟩
  · refine ⟨_, _,
      communication_cycle_mkDev (write_is_on (write_is_on s true) false)
        rB rP rS rSt rTxt rM q hSt, ?_⟩
    unfold cycleTrace write_is_on
    cases hc : s.temp_setp_changed <;>
      simp [isStartStop, hc, out_sp_cmd_ne_start, out_sp_cmd_ne_stop]
  · rw [write_is_on_step_mkDev]
    simp
  · rw [write_is_on_step_mkDev]
    simp
  · rw [write_is_on_step_mkDev]
    simp [htog]

/-- Witness for C4 on the initial state with an all-ok device. -/
theorem C4_power_request_last_write_wins_witness :
    write_is_on (write_is_on initState true) false =
      { initState with is_on := false, is_on_toggle := true } :=
  (C4_power_request_last_write_wins initState "23.5" "1.2" "21.0" "0" "OK" "1"
    (mkRat 0 1) (by decide)).1

/-- C1 counterexample: errors during steady-state polling are NOT always
non-fatal.  With no pending writes, a non-numeric `STATUS` response ("XYZ")
makes `int(float(response))` in `_read_chiller_status` raise an uncaught
ValueError, and a serial exception on any exchange (here the first read)
propagates likewise: in both cases the cycle aborts with an exception that
kills the Worker thread instead of completing, so no next cycle runs. -/
theorem C1_counterexample :
    communication_cycle (mkDev "23.5" "1.2" "21.0" "XYZ" "OK" "0") initState =
      .error (.valueError "XYZ") ∧
    communication_cycle (fun _ => none) initState =
      .error (.transport "IN_PV_00") := by
  exact ⟨by decide, by decide⟩

/-- C1 amended: decode errors on the guarded read steps (bath temperature,
pressure, active setpoint, run mode — each wrapped in `try/except
ValueError`) are non-fatal: the affected field keeps its previous value,
every other reading of the cycle is taken as usual, the cycle completes and
any number of further cycles proceeds — PROVIDED every exchange returns a
line and the `STATUS` response parses as a number.  (A transport error on
any step, or a non-numeric `STATUS` response, instead raises an uncaught
exception that terminates the Worker: see the counterexample.) -/
theorem C1_amended_guarded_decode_errors_nonfatal (s : LaudaT2200)
    (rB rP rS rSt rTxt rM : String) (q : Rat) (hSt : pyFloat? rSt = some q) :
    ∃ s' t, communication_cycle (mkDev rB rP rS rSt rTxt rM) s = .ok (s', t) ∧
      (pyFloat? rB = none → s'.bath_temp = s.bath_temp) ∧
      (∀ v, pyFloat? rB = some v → s'.bath_temp = v) ∧
      (pyFloat? rP = none → s'.pressure = s.pressure) ∧
      (∀ v, pyFloat? rP = some v → s'.pressure = v) ∧
      (pyFloat? rS = none → s'.temp_setp = s.temp_setp) ∧
      (pyFloat? rM = none → s'.is_on = s.is_on) ∧
      s'.chiller_status = rTxt ∧
      (∀ n, ∃ s2 t2,
        communication_loop n (mkDev rB rP rS rSt rTxt rM) s = .ok (s2, t2)) := by
  refine ⟨cycleState s rB rP rS rTxt rM q, cycleTrace s rB rP rS rSt rTxt rM,
    communication_cycle_mkDev s rB rP rS rSt rTxt rM q hSt,
    fun h => by simp [cycleState, h], fun v h => by simp [cycleState, h],
    fun h => by simp [cycleState, h], fun v h => by simp [cycleState, h],
    fun h => by simp [cycleState, h], fun h => by simp [cycleState, h],
    by simp [cycleState],
    fun n => communication_loop_mkDev_ok rB rP rS rSt rTxt rM q hSt n s⟩

/-- Witness for the amended C1: the bath-temperature response "XY" fails to
decode and leaves bath_temp at its previous value 0 while pressure still
updates to 1.2 and the cycle completes. -/
theorem C1_amended_guarded_decode_errors_nonfatal_witness :
    ∃ s' t, communication_cycle (mkDev "XY" "1.2" "21.0" "0" "OK" "1")
        initState = .ok (s', t) ∧
      s'.bath_temp = initState.bath_temp ∧ s'.pressure = mkRat 6 5 := by
  obtain ⟨s', t, hok, hb, _, _, hp, _, _, _, _⟩ :=
    C1_amended_guarded_decode_errors_nonfatal initState "XY" "1.2" "21.0" "0"
      "OK" "1" (mkRat 0 1) (by decide)
  exact ⟨s', t, hok, hb (by decide), hp (mkRat 6 5) (by decide)⟩
